import Mathlib

/-
Verification of the GuppShupp personalization layer: a shallow embedding of
the memory-extraction service (src/services/memory_extractor.py with the
pydantic models of src/models/memory_models.py), the personality engine
(src/services/personality_engine.py) and the LLM client payload construction
(src/services/llm_client.py), with theorems settling the frozen claims.
Python strings are modelled as Lean strings (ASCII case mapping), floats as
rationals, dicts as association lists in insertion order, and fallible code
as Except.
-/

namespace GS

/-- Python str.strip() whitespace set: space, tab, newline, carriage return,
vertical tab, form feed. -/
def isPySpace (c : Char) : Bool :=
  c = ' ' || c = '\t' || c = '\n' || c = '\r' || c = '\x0b' || c = '\x0c'

/-- Drop the characters satisfying p from both ends of a character list. -/
def stripList (p : Char → Bool) (l : List Char) : List Char :=
  ((l.dropWhile p).reverse.dropWhile p).reverse

/-- Python s.strip(): remove leading and trailing whitespace. -/
def pyStrip (s : String) : String :=
  String.mk (stripList isPySpace s.data)

/-- Python s.strip(chars): remove leading and trailing characters drawn from
the character SET chars (not the literal prefix/suffix chars). -/
def pyStripChars (s : String) (chars : String) : String :=
  String.mk (stripList (fun c => chars.data.contains c) s.data)

/-- Python s.lower(), restricted to the ASCII mapping of Char.toLower. -/
def pyLower (s : String) : String :=
  String.mk (s.data.map Char.toLower)

/-- Python s.upper(), restricted to the ASCII mapping of Char.toUpper. -/
def pyUpper (s : String) : String :=
  String.mk (s.data.map Char.toUpper)

/-- Does the character list start with the pattern? -/
def listStartsWith : List Char → List Char → Bool
  | [], _ => true
  | _ :: _, [] => false
  | p :: ps, c :: cs => p = c && listStartsWith ps cs

/-- Is the pattern a contiguous sublist of the text? -/
def listContainsSub (p : List Char) : List Char → Bool
  | [] => p.isEmpty
  | c :: cs => listStartsWith p (c :: cs) || listContainsSub p cs

/-- Python "needle in hay" substring test. -/
def containsSub (needle hay : String) : Bool :=
  listContainsSub needle.data hay.data

/-- The values produced by Python json.loads: null, bool, int, float, str,
list and dict (keys in insertion order). ints and floats are kept apart as
Python does; floats are modelled as rationals (NaN and Infinity, which the
Python parser also accepts as an extension, are not modelled). -/
inductive Json where
  | null
  | bool (b : Bool)
  | intNum (n : ℤ)
  | floatNum (q : ℚ)
  | str (s : String)
  | arr (elems : List Json)
  | obj (fields : List (String × Json))

/-- Python dict insertion: a repeated key keeps its original position and is
overwritten, a new key is appended. -/
def objInsert (kvs : List (String × Json)) (k : String) (v : Json) :
    List (String × Json) :=
  if kvs.any (fun kv => kv.1 = k) then
    kvs.map (fun kv => if kv.1 = k then (k, v) else kv)
  else
    kvs ++ [(k, v)]

/-- Lookup in an association list modelling a Python dict. -/
def dictGet (kvs : List (String × Json)) (k : String) : Option Json :=
  (kvs.find? (fun kv => kv.1 = k)).map (fun kv => kv.2)

/-- d.get(k) on a JSON value that is a dict; none on other shapes. -/
def objGet (j : Json) (k : String) : Option Json :=
  match j with
  | .obj kvs => dictGet kvs k
  | _ => none

/-- Python iteration over a JSON-shaped value: a list yields its elements, a
str yields its characters as one-character strings, a dict yields its keys;
null, bools and numbers are not iterable (TypeError). -/
def iterElems : Json → Except Unit (List Json)
  | .arr xs => .ok xs
  | .str s => .ok (s.data.map (fun c => Json.str (String.mk [c])))
  | .obj kvs => .ok (kvs.map (fun kv => Json.str kv.1))
  | _ => .error ()

/-- JSON whitespace as Python json skips it: space, tab, newline, carriage
return. -/
def skipWs (l : List Char) : List Char :=
  l.dropWhile (fun c => c = ' ' || c = '\t' || c = '\n' || c = '\r')

/-- Value of a decimal digit, none for other characters. -/
def digitVal (c : Char) : Option Nat :=
  let d := c.toNat - '0'.toNat
  if c.isDigit then some d else none

/-- Value of a hexadecimal digit, none for other characters. -/
def hexVal (c : Char) : Option Nat :=
  match digitVal c with
  | some d => some d
  | none =>
    let lc := c.toLower
    if 'a' ≤ lc && lc ≤ 'f' then some (lc.toNat + 10 - 'a'.toNat) else none

/-- Take a maximal non-empty run of decimal digits: (value, count, rest). -/
def takeDigits : List Char → Nat → Nat → (Nat × Nat × List Char)
  | [], acc, cnt => (acc, cnt, [])
  | c :: cs, acc, cnt =>
    match digitVal c with
    | some d => takeDigits cs (acc * 10 + d) (cnt + 1)
    | none => (acc, cnt, c :: cs)

/-- The body of a JSON string literal after the opening quote, with the
escapes \" \\ \/ \b \f \n \r \t \uXXXX; unescaped control characters are
rejected as Python json does in strict mode. Fueled by input length. -/
def parseStrAux : Nat → List Char → List Char → Option (String × List Char)
  | 0, _, _ => none
  | fuel + 1, acc, input =>
    match input with
    | [] => none
    | '"' :: rest => some (String.mk acc.reverse, rest)
    | '\\' :: e :: rest =>
      match e with
      | '"' => parseStrAux fuel ('"' :: acc) rest
      | '\\' => parseStrAux fuel ('\\' :: acc) rest
      | '/' => parseStrAux fuel ('/' :: acc) rest
      | 'b' => parseStrAux fuel ('\x08' :: acc) rest
      | 'f' => parseStrAux fuel ('\x0c' :: acc) rest
      | 'n' => parseStrAux fuel ('\n' :: acc) rest
      | 'r' => parseStrAux fuel ('\r' :: acc) rest
      | 't' => parseStrAux fuel ('\t' :: acc) rest
      | 'u' =>
        match rest with
        | h1 :: h2 :: h3 :: h4 :: r2 =>
          match hexVal h1, hexVal h2, hexVal h3, hexVal h4 with
          | some a, some b, some c, some d =>
            parseStrAux fuel (Char.ofNat (((a * 16 + b) * 16 + c) * 16 + d) :: acc) r2
          | _, _, _, _ => none
        | _ => none
      | _ => none
    | '\\' :: [] => none
    | c :: rest =>
      if c.toNat < 32 then none else parseStrAux fuel (c :: acc) rest

/-- A JSON string literal body starting after the opening quote. -/
def parseJsonString (input : List Char) : Option (String × List Char) :=
  parseStrAux (input.length + 1) [] input

/-- A JSON number with the strict grammar Python json uses:
-? (0 | [1-9][0-9]*) (. [0-9]+)? ([eE] [+-]? [0-9]+)?. A literal without
fraction and exponent is a Python int, otherwise a float. -/
def parseNumber (input : List Char) : Option (Json × List Char) :=
  let (neg, s1) := match input with
    | '-' :: r => (true, r)
    | _ => (false, input)
  let intPart : Option (Nat × List Char) := match s1 with
    | '0' :: r => some (0, r)
    | c :: _ =>
      match digitVal c with
      | some _ =>
        let (v, _, r) := takeDigits s1 0 0
        some (v, r)
      | none => none
    | [] => none
  match intPart with
  | none => none
  | some (ip, s2) =>
    let fracPart : Option (Option (Nat × Nat) × List Char) := match s2 with
      | '.' :: r =>
        let (fv, fc, r2) := takeDigits r 0 0
        if fc = 0 then none else some (some (fv, fc), r2)
      | _ => some (none, s2)
    match fracPart with
    | none => none
    | some (fr, s3) =>
      let expPart : Option (Option ℤ × List Char) := match s3 with
        | 'e' :: r | 'E' :: r =>
          let (esign, r1) : (Bool × List Char) := match r with
            | '-' :: r2 => (true, r2)
            | '+' :: r2 => (false, r2)
            | _ => (false, r)
          let (ev, ec, r2) := takeDigits r1 0 0
          if ec = 0 then none
          else some (some (if esign then -(ev : ℤ) else (ev : ℤ)), r2)
        | _ => some (none, s3)
      match expPart with
      | none => none
      | some (ex, s4) =>
        match fr, ex with
        | none, none =>
          some (.intNum (if neg then -(ip : ℤ) else (ip : ℤ)), s4)
        | _, _ =>
          let mag : ℚ := (ip : ℚ) +
            (match fr with
             | some (fv, fc) => (fv : ℚ) / ((10 : ℚ) ^ fc)
             | none => 0)
          let expq : ℚ := (10 : ℚ) ^ (ex.getD 0)
          let q := (if neg then -mag else mag) * expq
          some (.floatNum q, s4)

mutual

/-- A JSON value (whitespace before it skipped), fueled; with its helpers for
array and object bodies. Every recursive call strictly decreases the fuel. -/
def parseVal : Nat → List Char → Option (Json × List Char)
  | 0, _ => none
  | fuel + 1, input =>
    match skipWs input with
    | 'n' :: 'u' :: 'l' :: 'l' :: rest => some (.null, rest)
    | 't' :: 'r' :: 'u' :: 'e' :: rest => some (.bool true, rest)
    | 'f' :: 'a' :: 'l' :: 's' :: 'e' :: rest => some (.bool false, rest)
    | '"' :: rest => (parseJsonString rest).map (fun sr => (.str sr.1, sr.2))
    | '[' :: rest =>
      (match skipWs rest with
       | ']' :: r2 => some (.arr [], r2)
       | _ => parseItems fuel rest [])
    | '\x7b' :: rest =>
      (match skipWs rest with
       | '\x7d' :: r2 => some (.obj [], r2)
       | _ => parseMembers fuel rest [])
    | other => parseNumber other

/-- The comma-separated items of a non-empty JSON array, then the closing
bracket. -/
def parseItems : Nat → List Char → List Json → Option (Json × List Char)
  | 0, _, _ => none
  | fuel + 1, input, acc =>
    match parseVal fuel input with
    | none => none
    | some (v, rest) =>
      match skipWs rest with
      | ',' :: r2 => parseItems fuel r2 (acc ++ [v])
      | ']' :: r2 => some (.arr (acc ++ [v]), r2)
      | _ => none

/-- The comma-separated "key": value members of a non-empty JSON object, then
the closing brace; duplicate keys overwrite as Python dicts do. -/
def parseMembers : Nat → List Char → List (String × Json) →
    Option (Json × List Char)
  | 0, _, _ => none
  | fuel + 1, input, acc =>
    match skipWs input with
    | '"' :: rest =>
      match parseJsonString rest with
      | none => none
      | some (k, r2) =>
        match skipWs r2 with
        | ':' :: r3 =>
          match parseVal fuel r3 with
          | none => none
          | some (v, r4) =>
            match skipWs r4 with
            | ',' :: r5 => parseMembers fuel r5 (objInsert acc k v)
            | '\x7d' :: r5 => some (.obj (objInsert acc k v), r5)
            | _ => none
        | _ => none
    | _ => none

end

/-- Python json.loads: parse one JSON value and require only whitespace after
it; none models json.JSONDecodeError. The fuel 4*length+16 is ample: every
recursive descent step consumes input. -/
def jsonParse (s : String) : Option Json :=
  match parseVal (4 * s.length + 16) s.data with
  | some (v, rest) => if skipWs rest = [] then some v else none
  | none => none

/-- models/memory_models.py UserPreference (pydantic): category is a
PreferenceType value, value a str, confidence a float with ge=0, le=1,
context an optional str, examples a list of str defaulting to []. -/
structure UserPreference where
  category : String
  value : String
  confidence : ℚ
  context : Option String
  examples : List String
deriving Repr, DecidableEq

/-- models/memory_models.py EmotionalPattern (pydantic): pattern a str,
frequency a float with ge=0, le=1, triggers a list of str defaulting to [],
intensity a str that validate_intensity restricts to low, medium or high,
context an optional str. -/
structure EmotionalPattern where
  pattern : String
  frequency : ℚ
  triggers : List String
  intensity : String
  context : Option String
deriving Repr, DecidableEq

/-- models/memory_models.py UserFact (pydantic): fact_type and value str,
confidence a float with ge=0, le=1, source_context and temporal_relevance
optional str. -/
structure UserFact where
  fact_type : String
  value : String
  confidence : ℚ
  source_context : Option String
  temporal_relevance : Option String
deriving Repr, DecidableEq

/-- models/memory_models.py UserMemory, restricted to the fields the
extractor computes (the datetime fields and the constant analysis_version
are omitted); preferences is the Python dict PreferenceType -> list in key
insertion order. -/
structure UserMemory where
  user_id : Option String
  preferences : List (String × List UserPreference)
  emotional_patterns : List EmotionalPattern
  facts : List UserFact
  message_count : ℤ
deriving Repr, DecidableEq

/-- The PreferenceType enumeration values of models/memory_models.py. -/
def preferenceTypes : List String :=
  ["communication", "content", "behavior", "emotional", "social",
   "professional", "lifestyle", "technical"]

/-- The allowed intensity levels of EmotionalPattern.validate_intensity. -/
def intensityLevels : List String := ["low", "medium", "high"]

/-- A required str field of a pydantic element: present and a JSON string
(the numeric-to-str coercions of pydantic v1 are not modelled). -/
def strField (j : Json) (k : String) : Option String :=
  match objGet j k with
  | some (.str s) => some s
  | _ => none

/-- A required float field: pydantic float accepts int, float and bool. -/
def floatField (j : Json) (k : String) : Option ℚ :=
  match objGet j k with
  | some (.intNum n) => some (n : ℚ)
  | some (.floatNum q) => some q
  | some (.bool b) => some (if b then 1 else 0)
  | _ => none

/-- An Optional[str] field: missing or null give none, a string gives it. -/
def optStrField (j : Json) (k : String) : Option (Option String)  :=
  match objGet j k with
  | none => some none
  | some .null => some none
  | some (.str s) => some (some s)
  | _ => none

/-- A List[str] field with default []: missing gives [], a list of strings
gives them, anything else fails validation. -/
def strListField (j : Json) (k : String) : Option (List String) :=
  match objGet j k with
  | none => some []
  | some (.arr xs) =>
    xs.mapM (fun x => match x with | .str s => some s | _ => none)
  | some _ => none

/-- UserPreference(**pref_data): some iff every pydantic constraint of the
element holds, none models the ValidationError/TypeError the per-element
try/except of _parse_extraction_result swallows. -/
def parsePreference (j : Json) : Option UserPreference :=
  match strField j "category", strField j "value", floatField j "confidence",
      optStrField j "context", strListField j "examples" with
  | some cat, some v, some conf, some ctx, some exs =>
    if cat ∈ preferenceTypes ∧ 0 ≤ conf ∧ conf ≤ 1 then
      some ⟨cat, v, conf, ctx, exs⟩
    else none
  | _, _, _, _, _ => none

/-- EmotionalPattern(**pattern_data) under the same per-element policy. -/
def parsePattern (j : Json) : Option EmotionalPattern :=
  match strField j "intensity", strField j "pattern", floatField j "frequency",
      strListField j "triggers", optStrField j "context" with
  | some i, some p, some f, some t, some c =>
    if i ∈ intensityLevels ∧ 0 ≤ f ∧ f ≤ 1 then
      some ⟨p, f, t, i, c⟩
    else none
  | _, _, _, _, _ => none

/-- UserFact(**fact_data) under the same per-element policy. -/
def parseFact (j : Json) : Option UserFact :=
  match strField j "fact_type", strField j "value", floatField j "confidence",
      optStrField j "source_context", optStrField j "temporal_relevance" with
  | some ft, some v, some conf, some sc, some tr =>
    if 0 ≤ conf ∧ conf ≤ 1 then
      some ⟨ft, v, conf, sc, tr⟩
    else none
  | _, _, _, _, _ => none

/-- One step of building preferences_dict: append to the category's list,
creating the key at the end on first sight (Python dict insertion). -/
def insertPref (acc : List (String × List UserPreference)) (p : UserPreference) :
    List (String × List UserPreference) :=
  if acc.any (fun kv => kv.1 = p.category) then
    acc.map (fun kv => if kv.1 = p.category then (kv.1, kv.2 ++ [p]) else kv)
  else
    acc ++ [(p.category, [p])]

/-- The preferences_dict loop of _parse_extraction_result. -/
def groupPrefs (l : List UserPreference) : List (String × List UserPreference) :=
  l.foldl insertPref []

/-- The messages_analyzed normalization of _parse_extraction_result: a Python
int (which includes bool: True counts as 1) is used as-is, a list becomes its
length, anything else becomes 0. -/
def normalizeMessagesAnalyzed : Option Json → ℤ
  | some (.intNum n) => n
  | some (.bool b) => if b then 1 else 0
  | some (.arr xs) => (xs.length : ℤ)
  | _ => 0

/-- extraction_data.get(field, []) then Python iteration over the result. -/
def fieldElems (data : Json) (k : String) : Except Unit (List Json) :=
  iterElems ((objGet data k).getD (.arr []))

/-- MemoryExtractor._parse_extraction_result: requires a dict (otherwise the
outer try/except turns the AttributeError into a MemoryExtractionError),
iterates the three list fields dropping the elements that fail validation,
and normalizes messages_analyzed; a non-iterable field raises outside the
per-element try and fails the whole record. -/
def parseExtractionResult (data : Json) (userId : Option String) :
    Except Unit UserMemory :=
  match data with
  | .obj _ =>
    match fieldElems data "preferences", fieldElems data "emotional_patterns",
        fieldElems data "facts" with
    | .ok ps, .ok es, .ok fs =>
      .ok { user_id := userId
            preferences := groupPrefs (ps.filterMap parsePreference)
            emotional_patterns := es.filterMap parsePattern
            facts := fs.filterMap parseFact
            message_count :=
              normalizeMessagesAnalyzed (objGet data "messages_analyzed") }
    | _, _, _ => .error ()
  | _ => .error ()

/-- A chat message dict with the two keys the code reads via .get. -/
structure PyMsg where
  role : Option String
  content : Option String
deriving Repr, DecidableEq

/-- The line-collecting loop of MemoryExtractor._format_messages, with the
1-based counter of enumerate(messages, 1): the counter advances for every
message, the role defaults to "unknown" and is uppercased, the content is
stripped and the line is kept only when the stripped content is non-empty. -/
def formatLines : Nat → List PyMsg → List String
  | _, [] => []
  | i, m :: ms =>
    let role := pyUpper (m.role.getD "unknown")
    let content := pyStrip (m.content.getD "")
    if content = "" then formatLines (i + 1) ms
    else ("[" ++ toString i ++ "] " ++ role ++ ": " ++ content) ::
      formatLines (i + 1) ms

/-- MemoryExtractor._format_messages: the collected lines joined with
newlines. -/
def formatMessages (messages : List PyMsg) : String :=
  String.intercalate "\n" (formatLines 1 messages)

/-- The user prompt of MemoryExtractor._extract_with_llm around the formatted
messages. -/
def extractionUserPrompt (messages : List PyMsg) : String :=
  "Analyze these chat messages and extract user memory information:\n\n" ++
  formatMessages messages ++
  "\n\nFocus on identifying patterns, preferences, and facts that would be " ++
  "useful for creating personalized AI responses. Provide your analysis in " ++
  "the specified JSON format."

/-- The response cleaning of _extract_with_llm:
response.strip().strip('```json').strip('```').strip(). -/
def cleanResponse (raw : String) : String :=
  pyStrip (pyStripChars (pyStripChars (pyStrip raw) "```json") "```")

/-- The reasons extraction fails as a whole (MemoryExtractionError). -/
inductive ExtractError where
  | invalidJson
  | parseFailure
deriving Repr, DecidableEq

/-- The JSON interpretation step of _extract_with_llm applied to the raw
model text: clean, then json.loads; a parse failure is the invalid-JSON
MemoryExtractionError. -/
def interpretExtractionReply (raw : String) : Except ExtractError Json :=
  match jsonParse (cleanResponse raw) with
  | some data => .ok data
  | none => .error .invalidJson

/-- MemoryExtractor._enhance_memory_with_stats: the statistics it computes
are local and discarded; its effect on the record is overwriting
message_count with the caller-supplied number of messages (and refreshing
the timestamp, which is not modelled). -/
def enhanceMemoryWithStats (memory : UserMemory) (messages : List PyMsg) :
    UserMemory :=
  { memory with message_count := (messages.length : ℤ) }

/-- The extract_memory pipeline from the raw model reply on: interpret the
reply, parse and validate it, then enhance with the caller's messages. -/
def extractMemoryFromReply (raw : String) (userId : Option String)
    (messages : List PyMsg) : Except ExtractError UserMemory :=
  match interpretExtractionReply raw with
  | .error e => .error e
  | .ok data =>
    match parseExtractionResult data userId with
    | .error _ => .error .parseFailure
    | .ok memory => .ok (enhanceMemoryWithStats memory messages)

/-- models/personality_models.py PersonalityType. -/
inductive PersonalityType where
  | mentor
  | friend
  | therapist
  | professional
  | creative
  | analytical
  | enthusiastic
deriving Repr, DecidableEq

/-- All PersonalityType members in declaration order: list(PersonalityType). -/
def allPersonalities : List PersonalityType :=
  [.mentor, .friend, .therapist, .professional, .creative, .analytical,
   .enthusiastic]

/-- models/personality_models.py ToneCharacteristics. -/
structure ToneCharacteristics where
  formality : String
  empathy : String
  directness : String
  creativity : String
  humor : String
  supportiveness : String
deriving Repr, DecidableEq

/-- models/personality_models.py PersonalityProfile (the type field is named
ptype here because of Lean naming). -/
structure PersonalityProfile where
  name : String
  ptype : PersonalityType
  description : String
  characteristics : ToneCharacteristics
  system_prompt : String
  response_guidelines : List String
  vocabulary_preferences : List String
  response_patterns : List String
deriving Repr, DecidableEq

/-- The MENTOR profile of PersonalityEngine._initialize_personalities. -/
def mentorProfile : PersonalityProfile :=
  { name := "Wise Mentor"
    ptype := .mentor
    description := "An experienced, calm guide who provides structured wisdom and encouragement"
    characteristics :=
      ⟨"semi-formal", "high", "medium", "medium", "low", "high"⟩
    system_prompt := "You are a wise and experienced mentor. Your role is to provide guidance that is both insightful and actionable.

Communication Style:
- Speak with calm authority and wisdom
- Use metaphors and analogies to explain complex concepts
- Structure your thoughts clearly (often using frameworks like \"First... Second... Finally...\")
- Balance encouragement with honest feedback
- Ask thought-provoking questions that lead to self-discovery

Response Guidelines:
- Start with acknowledgment and validation
- Provide 2-3 key insights or pieces of advice
- Include a practical action step
- End with encouragement or a reflective question
- Use phrases like \"Consider this perspective...\", \"What I've found is...\", \"This reminds me of...\"

Vocabulary: wisdom, insight, perspective, journey, growth, potential, guidance, reflect"
    response_guidelines :=
      ["Always validate the user's feelings or situation first",
       "Provide structured, actionable advice",
       "Use storytelling or metaphors when helpful",
       "End with forward-looking encouragement"]
    vocabulary_preferences :=
      ["wisdom", "insight", "perspective", "journey", "growth",
       "potential", "guidance", "reflect", "consider"]
    response_patterns :=
      ["I understand where you're coming from...",
       "Let me share a perspective that might help...",
       "Here's what I've found valuable...",
       "Consider taking these steps..."] }

/-- The FRIEND profile of PersonalityEngine._initialize_personalities (the
stray line \"Includes Include light.\" is in the source). -/
def friendProfile : PersonalityProfile :=
  { name := "Witty Friend"
    ptype := .friend
    description := "A fun, casual companion who uses humor and relatable language"
    characteristics :=
      ⟨"casual", "medium", "high", "high", "high", "medium"⟩
    system_prompt := "You are a witty and friendly companion. Your role is to make conversations engaging, fun, and relatable.

Communication Style:
- Use casual, conversational language
- Incorporate appropriate humor and wit
- Be enthusiastic and energetic
- Share relatable experiences or observations
- Keep responses concise and punchy

Response Guidelines:
- Start with an engaging or humorous opening
- Use informal language and contractions
- Includes Include light.
- Keep 2-3 sentences maximum for most responses
- Use emojis occasionally when appropriate
- End with a friendly question or comment

Vocabulary: awesome, totally, literally, basically, honestly, fun, cool, interesting"
    response_guidelines :=
      ["Keep it light and fun",
       "Use humor appropriately",
       "Be relatable and authentic",
       "Keep responses concise"]
    vocabulary_preferences :=
      ["awesome", "totally", "literally", "basically", "honestly",
       "fun", "cool", "interesting", "dude", "man", "hey"]
    response_patterns :=
      ["OMG, totally get what you mean!",
       "Honestly, that reminds me of...",
       "You know what I mean?",
       "That's so relatable!"] }

/-- The THERAPIST profile of PersonalityEngine._initialize_personalities. -/
def therapistProfile : PersonalityProfile :=
  { name := "Empathetic Therapist"
    ptype := .therapist
    description := "A compassionate, professional guide who helps explore thoughts and feelings"
    characteristics :=
      ⟨"formal", "high", "low", "low", "low", "high"⟩
    system_prompt := "You are an empathetic and professional therapist. Your role is to provide a safe, supportive space for exploration.

Communication Style:
- Use warm, professional language
- Practice active listening and validation
- Ask gentle, open-ended questions
- Maintain appropriate boundaries
- Focus on feelings and underlying patterns

Response Guidelines:
- Always acknowledge and validate feelings
- Use reflective statements
- Ask thoughtful questions about experience
- Avoid giving direct advice unless specifically asked
- Use \"I hear you saying...\" or \"It sounds like...\" patterns
- Maintain calm, steady tone

Vocabulary: feelings, experience, notice, wonder, explore, understand, support"
    response_guidelines :=
      ["Validate emotions first",
       "Ask open-ended questions",
       "Use reflective listening",
       "Maintain professional boundaries"]
    vocabulary_preferences :=
      ["feelings", "experience", "notice", "wonder", "explore",
       "understand", "support", "validate", "reflect"]
    response_patterns :=
      ["I hear you saying that...",
       "It sounds like you're feeling...",
       "What I'm noticing is...",
       "How does that feel for you?",
       "Tell me more about..."] }

/-- The PROFESSIONAL profile of PersonalityEngine._initialize_personalities. -/
def professionalProfile : PersonalityProfile :=
  { name := "Professional Assistant"
    ptype := .professional
    description := "A formal, efficient assistant who provides clear, actionable information"
    characteristics :=
      ⟨"formal", "low", "high", "low", "low", "medium"⟩
    system_prompt := "You are a professional and efficient assistant. Your role is to provide clear, accurate information and solutions.

Communication Style:
- Use formal, professional language
- Be direct and to the point
- Organize information logically
- Focus on facts and practical solutions
- Maintain appropriate professional distance

Response Guidelines:
- Start with a clear acknowledgment
- Provide 2-3 key points or solutions
- Use bullet points or numbered lists when appropriate
- Avoid unnecessary elaboration
- End with a professional closing

Vocabulary: efficient, solution, recommendation, implement, strategy, optimize"
    response_guidelines :=
      ["Be direct and concise",
       "Focus on practical solutions",
       "Use professional language",
       "Structure information clearly"]
    vocabulary_preferences :=
      ["efficient", "solution", "recommendation", "implement",
       "strategy", "optimize", "professional", "regarding"]
    response_patterns :=
      ["I understand your request regarding...",
       "Here are the key recommendations:",
       "To address this effectively...",
       "Please let me know if you require..."] }

/-- The CREATIVE profile of PersonalityEngine._initialize_personalities. -/
def creativeProfile : PersonalityProfile :=
  { name := "Creative Muse"
    ptype := .creative
    description := "An imaginative, artistic personality who thinks outside the box"
    characteristics :=
      ⟨"casual", "medium", "low", "high", "medium", "high"⟩
    system_prompt := "You are a creative and imaginative muse. Your role is to inspire innovative thinking and artistic expression.

Communication Style:
- Use vivid, descriptive language
- Think metaphorically and symbolically
- Encourage exploration and experimentation
- Make unexpected connections
- Inspire rather than direct

Response Guidelines:
- Use colorful imagery and metaphors
- Ask \"what if\" questions
- Suggest multiple perspectives
- Encourage creative exploration
- Use artistic and expressive language

Vocabulary: imagine, create, inspire, vision, canvas, palette, masterpiece"
    response_guidelines :=
      ["Think metaphorically",
       "Encourage exploration",
       "Use vivid imagery",
       "Make unexpected connections"]
    vocabulary_preferences :=
      ["imagine", "create", "inspire", "vision", "canvas",
       "palette", "masterpiece", "artistic", "express"]
    response_patterns :=
      ["Imagine if we could...",
       "This reminds me of a painting where...",
       "What if we approached this like...",
       "Let's paint a picture of..."] }

/-- The ANALYTICAL profile of PersonalityEngine._initialize_personalities. -/
def analyticalProfile : PersonalityProfile :=
  { name := "Analytical Thinker"
    ptype := .analytical
    description := "A logical, data-driven personality who breaks down complex problems"
    characteristics :=
      ⟨"formal", "low", "high", "low", "low", "medium"⟩
    system_prompt := "You are an analytical and logical thinker. Your role is to break down complex problems into understandable components.

Communication Style:
- Use precise, logical language
- Focus on data and evidence
- Break down complex ideas systematically
- Identify patterns and relationships
- Maintain objective perspective

Response Guidelines:
- Start with problem analysis
- Use logical frameworks (cause-effect, pros-cons)
- Provide evidence-based reasoning
- Identify key variables and factors
- Conclude with logical recommendations

Vocabulary: analyze, data, evidence, logical, systematic, framework, variables"
    response_guidelines :=
      ["Break down problems systematically",
       "Use evidence-based reasoning",
       "Maintain objectivity",
       "Focus on logical structure"]
    vocabulary_preferences :=
      ["analyze", "data", "evidence", "logical", "systematic",
       "framework", "variables", "hypothesis", "correlation"]
    response_patterns :=
      ["Let's analyze this systematically...",
       "The data suggests that...",
       "Breaking this down into components...",
       "From a logical perspective..."] }

/-- The ENTHUSIASTIC profile of PersonalityEngine._initialize_personalities. -/
def enthusiasticProfile : PersonalityProfile :=
  { name := "Enthusiastic Cheerleader"
    ptype := .enthusiastic
    description := "An energetic, optimistic personality who motivates and inspires"
    characteristics :=
      ⟨"casual", "high", "high", "medium", "medium", "high"⟩
    system_prompt := "You are an enthusiastic and optimistic cheerleader. Your role is to motivate, inspire, and celebrate progress.

Communication Style:
- Use high-energy, positive language
- Express genuine excitement and encouragement
- Celebrate small wins and progress
- Use exclamation points (appropriately)
- Maintain upbeat, positive tone

Response Guidelines:
- Start with enthusiastic acknowledgment
- Use positive reinforcement
- Celebrate effort and progress
- Express belief in user's potential
- End with motivational encouragement

Vocabulary: amazing, excited, fantastic, wonderful, brilliant, celebrate"
    response_guidelines :=
      ["Maintain high energy",
       "Celebrate progress",
       "Use positive reinforcement",
       "Express genuine enthusiasm"]
    vocabulary_preferences :=
      ["amazing", "excited", "fantastic", "wonderful", "brilliant",
       "celebrate", "awesome", "incredible", "motivated"]
    response_patterns :=
      ["That's absolutely amazing!",
       "I'm so excited for you!",
       "You're doing fantastic!",
       "Let's celebrate this progress!"] }

/-- The personalities dict of PersonalityEngine as a total map. -/
def personalityProfile : PersonalityType → PersonalityProfile
  | .mentor => mentorProfile
  | .friend => friendProfile
  | .therapist => therapistProfile
  | .professional => professionalProfile
  | .creative => creativeProfile
  | .analytical => analyticalProfile
  | .enthusiastic => enthusiasticProfile

/-- Python repr of a string, approximated with a fixed single-quote wrapping
(Python switches quotes and escapes depending on content). -/
def reprStr (s : String) : String :=
  "'" ++ s ++ "'"

/-- Python repr of a float, approximated by the rational's own rendering
(Python prints the shortest decimal that round-trips the IEEE double). -/
def floatRepr (q : ℚ) : String :=
  toString q

mutual

/-- Python repr of a JSON-shaped value (used inside containers). -/
def pyRepr : Json → String
  | .null => "None"
  | .bool b => if b then "True" else "False"
  | .intNum n => toString n
  | .floatNum q => floatRepr q
  | .str s => reprStr s
  | .arr xs => "[" ++ String.intercalate ", " (pyReprList xs) ++ "]"
  | .obj kvs => "\x7b" ++ String.intercalate ", " (pyReprFields kvs) ++ "\x7d"

/-- repr of each element of a list. -/
def pyReprList : List Json → List String
  | [] => []
  | x :: xs => pyRepr x :: pyReprList xs

/-- repr of each key: value member of a dict. -/
def pyReprFields : List (String × Json) → List String
  | [] => []
  | (k, v) :: kvs => (reprStr k ++ ": " ++ pyRepr v) :: pyReprFields kvs

end

/-- Python str of a JSON-shaped value as an f-string renders it: a str is
inserted verbatim, containers through repr. -/
def pyStr : Json → String
  | .str s => s
  | j => pyRepr j

/-- PersonalityEngine._format_memory_context: one part per present key among
preferences, emotional_patterns and facts, joined with semicolons. -/
def formatMemoryContext (user_memory : List (String × Json)) : String :=
  if user_memory.isEmpty then ""
  else
    String.intercalate "; "
      ((match dictGet user_memory "preferences" with
        | some v => ["Preferences: " ++ pyStr v]
        | none => []) ++
       (match dictGet user_memory "emotional_patterns" with
        | some v => ["Emotional patterns: " ++ pyStr v]
        | none => []) ++
       (match dictGet user_memory "facts" with
        | some v => ["Known facts: " ++ pyStr v]
        | none => []))

/-- PersonalityEngine._format_conversation_context: the last 3 messages,
each as "role: content" with the content truncated to 100 characters,
joined with " | ". -/
def formatConversationContext (conversation : List PyMsg) : String :=
  if conversation = [] then ""
  else
    String.intercalate " | "
      ((conversation.drop (conversation.length - 3)).map (fun m =>
        (m.role.getD "unknown") ++ ": " ++ ((m.content.getD "").take 100)))

/-- models/personality_models.py ResponseGenerationRequest. -/
structure ResponseGenerationRequest where
  user_message : String
  personality : PersonalityType
  user_memory : Option (List (String × Json))
  conversation_history : Option (List PyMsg)
  context : Option String

/-- models/personality_models.py PersonalityTransformationRequest. -/
structure PersonalityTransformationRequest where
  original_response : String
  target_personality : PersonalityType
  user_memory : Option (List (String × Json))
  conversation_context : Option (List PyMsg)
  user_message : Option String

/-- PersonalityEngine._build_context_prompt: the user message with the
optional context, memory and history sections appended (a None or falsy
value skips its section), joined with newlines. -/
def buildContextPrompt (user_message : String)
    (user_memory : Option (List (String × Json)))
    (conversation_history : Option (List PyMsg)) (context : Option String) :
    String :=
  String.intercalate "\n"
    (["User message: " ++ user_message] ++
     (match context with
      | some c => if c = "" then [] else ["\nAdditional context: " ++ c]
      | none => []) ++
     (match user_memory with
      | some d =>
        if d.isEmpty then []
        else ["\nUser information: " ++ formatMemoryContext d]
      | none => []) ++
     (match conversation_history with
      | some h =>
        if h = [] then []
        else ["\nRecent conversation: " ++ formatConversationContext h]
      | none => []) ++
     ["\nGenerate a response that matches your personality and uses the context above."])

/-- ToneCharacteristics.dict() as an f-string renders it, keys in field
declaration order. -/
def toneCharacteristicsRepr (c : ToneCharacteristics) : String :=
  "\x7b'formality': " ++ reprStr c.formality ++
  ", 'empathy': " ++ reprStr c.empathy ++
  ", 'directness': " ++ reprStr c.directness ++
  ", 'creativity': " ++ reprStr c.creativity ++
  ", 'humor': " ++ reprStr c.humor ++
  ", 'supportiveness': " ++ reprStr c.supportiveness ++ "\x7d"

/-- PersonalityEngine._build_transformation_prompt. -/
def buildTransformationPrompt (original_response : String)
    (target_profile : PersonalityProfile)
    (user_memory : Option (List (String × Json)))
    (conversation_context : Option (List PyMsg)) (user_message : Option String) :
    String :=
  String.intercalate "\n"
    (["Transform this response to match the " ++ target_profile.name ++
        " personality:",
      "\nOriginal response: " ++ original_response,
      "\nKeep the core meaning but adapt the tone, style, and language to match the target personality."] ++
     (match user_message with
      | some m => if m = "" then [] else ["\nOriginal user message: " ++ m]
      | none => []) ++
     (match user_memory with
      | some d =>
        if d.isEmpty then []
        else ["\nUser context: " ++ formatMemoryContext d]
      | none => []) ++
     (match conversation_context with
      | some h =>
        if h = [] then []
        else ["\nRecent conversation: " ++ formatConversationContext h]
      | none => []) ++
     ["\nPersonality characteristics: " ++
        toneCharacteristicsRepr target_profile.characteristics,
      "\nResponse guidelines: " ++
        String.intercalate "; " target_profile.response_guidelines,
      "\nTransform the response now:"])

/-- The arguments of one llm_client.generate_response call as the engine
issues it. -/
structure LLMRequest where
  systemPrompt : String
  userPrompt : String
  temperature : ℚ
  maxTokens : ℕ
deriving Repr, DecidableEq

/-- A deterministic stub of llm_client.generate_response: the returned text,
or the LLMClientError the call raised. -/
def LLMGateway : Type :=
  LLMRequest → Except Unit String

/-- The llm_client call issued by PersonalityEngine.generate_response:
the personality's system prompt, the context prompt, temperature 0.7 for
FRIEND and 0.5 otherwise, max_tokens 500. -/
def generationLLMRequest (request : ResponseGenerationRequest) : LLMRequest :=
  { systemPrompt := (personalityProfile request.personality).system_prompt
    userPrompt := buildContextPrompt request.user_message request.user_memory
      request.conversation_history request.context
    temperature := if request.personality = .friend then mkRat 7 10 else mkRat 1 2
    maxTokens := 500 }

/-- The primary llm_client call issued by
PersonalityEngine.transform_response: same temperature selection. -/
def transformationLLMRequest (request : PersonalityTransformationRequest) :
    LLMRequest :=
  { systemPrompt := (personalityProfile request.target_personality).system_prompt
    userPrompt := buildTransformationPrompt request.original_response
      (personalityProfile request.target_personality) request.user_memory
      request.conversation_context request.user_message
    temperature := if request.target_personality = .friend then mkRat 7 10 else mkRat 1 2
    maxTokens := 500 }

/-- The auxiliary llm_client call of PersonalityEngine._analyze_tone_changes. -/
def toneAnalysisLLMRequest (original transformed : String)
    (target_profile : PersonalityProfile) : LLMRequest :=
  { systemPrompt := "You are an expert in communication analysis."
    userPrompt := "Compare these two responses and analyze the tone changes:\n\nOriginal: " ++
      original ++ "\nTransformed: " ++ transformed ++
      "\nTarget personality: " ++ target_profile.name ++
      "\n\nAnalyze changes in:\n- Formality\n- Empathy level\n- Directness\n- Creativity\n- Humor\n- Supportiveness\n\nProvide a brief analysis of what changed and how well it matches the target personality."
    temperature := mkRat 3 10
    maxTokens := 300 }

/-- The auxiliary llm_client call of
PersonalityEngine._generate_transformation_explanation. -/
def explanationLLMRequest (original transformed : String)
    (target_profile : PersonalityProfile) : LLMRequest :=
  { systemPrompt := "You are an expert in personality communication."
    userPrompt := "Explain how this response was transformed to match the " ++
      target_profile.name ++ " personality:\n\nOriginal: " ++ original ++
      "\nTransformed: " ++ transformed ++
      "\n\nExplain the specific changes made in tone, language, and approach. Be concise and informative."
    temperature := mkRat 3 10
    maxTokens := 200 }

/-- One element of the _extract_personalization_elements loop: pref must be a
str for pref.lower() (anything else raises and aborts the generation call),
and is reported when it is a lowercase substring of the lowercase response. -/
def prefRef (responseLower : String) : Json → Except Unit (Option String)
  | .str s =>
    .ok (if containsSub (pyLower s) responseLower then
      some ("Referenced preference: " ++ s) else none)
  | _ => .error ()

/-- The collection loop over the iterated preferences. -/
def prefsLoop (responseLower : String) : List Json → Except Unit (List String)
  | [] => .ok []
  | x :: xs =>
    match prefRef responseLower x with
    | .error _ => .error ()
    | .ok none => prefsLoop responseLower xs
    | .ok (some r) =>
      match prefsLoop responseLower xs with
      | .error _ => .error ()
      | .ok l => .ok (r :: l)

/-- PersonalityEngine._extract_personalization_elements: empty without
memory (None or empty dict) or without a preferences key, else the matching
entries of the iterated preferences value. -/
def extractPersonalizationElements (response : String)
    (user_memory : Option (List (String × Json))) :
    Except Unit (List String) :=
  match user_memory with
  | none => .ok []
  | some d =>
    if d.isEmpty then .ok []
    else
      match dictGet d "preferences" with
      | none => .ok []
      | some v =>
        match iterElems v with
        | .error _ => .error ()
        | .ok xs => prefsLoop (pyLower response) xs

/-- One element of the _extract_memory_references loop: non-dict facts and
dicts without a value key are skipped; a value that is not a str raises at
fact['value'].lower() and aborts the generation call; a str value is
reported when it is a lowercase substring of the lowercase response. -/
def factRef (responseLower : String) : Json → Except Unit (Option String)
  | .obj kvs =>
    match dictGet kvs "value" with
    | some (.str s) =>
      .ok (if containsSub (pyLower s) responseLower then
        some ("Referenced fact: " ++ s) else none)
    | some _ => .error ()
    | none => .ok none
  | _ => .ok none

/-- The collection loop over the iterated facts. -/
def factsLoop (responseLower : String) : List Json → Except Unit (List String)
  | [] => .ok []
  | x :: xs =>
    match factRef responseLower x with
    | .error _ => .error ()
    | .ok none => factsLoop responseLower xs
    | .ok (some r) =>
      match factsLoop responseLower xs with
      | .error _ => .error ()
      | .ok l => .ok (r :: l)

/-- PersonalityEngine._extract_memory_references: empty without memory (None
or empty dict) or without a facts key, else the matching fact values of the
iterated facts value. -/
def extractMemoryReferences (response : String)
    (user_memory : Option (List (String × Json))) :
    Except Unit (List String) :=
  match user_memory with
  | none => .ok []
  | some d =>
    if d.isEmpty then .ok []
    else
      match dictGet d "facts" with
      | none => .ok []
      | some v =>
        match iterElems v with
        | .error _ => .error ()
        | .ok xs => factsLoop (pyLower response) xs

/-- PersonalityEngine._analyze_response_tone: a fixed metrics dict, no model
call. -/
def analyzeResponseTone (_response : String) (_profile : PersonalityProfile) :
    List (String × String) :=
  [("personality_match", "high"), ("tone_consistency", "good"),
   ("clarity", "high"), ("engagement", "medium")]

/-- models/personality_models.py ResponseGenerationResponse. -/
structure ResponseGenerationResponse where
  response : String
  personality : PersonalityType
  personalization_elements : List String
  tone_metrics : List (String × String)
  memory_references : List String
  generation_confidence : ℚ

/-- PersonalityEngine.generate_response with the llm_client stubbed by a
gateway: build the context prompt, issue the model call, then annotate; any
raised error (gateway or annotation) becomes the single
PersonalityEngineError of the outer try/except. -/
def generateResponse (gw : LLMGateway) (request : ResponseGenerationRequest) :
    Except Unit ResponseGenerationResponse :=
  match gw (generationLLMRequest request) with
  | .error _ => .error ()
  | .ok response =>
    match extractPersonalizationElements response request.user_memory with
    | .error _ => .error ()
    | .ok elements =>
      match extractMemoryReferences response request.user_memory with
      | .error _ => .error ()
      | .ok references =>
        .ok { response := response
              personality := request.personality
              personalization_elements := elements
              tone_metrics := analyzeResponseTone response
                (personalityProfile request.personality)
              memory_references := references
              generation_confidence := mkRat 22 25 }

/-- models/personality_models.py PersonalityTransformationResponse. -/
structure PersonalityTransformationResponse where
  original_response : String
  transformed_response : String
  personality_type : PersonalityType
  transformation_explanation : String
  tone_analysis : List (String × String)
  confidence_score : ℚ

/-- PersonalityEngine._analyze_tone_changes: the auxiliary model call wrapped
in its own try/except, substituting the fixed placeholder on any failure. -/
def analyzeToneChanges (gw : LLMGateway) (original transformed : String)
    (target_profile : PersonalityProfile) : List (String × String) :=
  match gw (toneAnalysisLLMRequest original transformed target_profile) with
  | .ok response => [("analysis", response)]
  | .error _ => [("analysis", "Tone analysis unavailable")]

/-- PersonalityEngine._generate_transformation_explanation: the auxiliary
model call wrapped in its own try/except, substituting the fixed placeholder
on any failure. -/
def generateTransformationExplanation (gw : LLMGateway)
    (original transformed : String) (target_profile : PersonalityProfile) :
    String :=
  match gw (explanationLLMRequest original transformed target_profile) with
  | .ok response => response
  | .error _ => "Transformation explanation unavailable"

/-- PersonalityEngine.transform_response with the llm_client stubbed by a
gateway: the primary transformation call, then the two recovered auxiliary
calls, then the assembled record with the fixed confidence 0.85. -/
def transformResponse (gw : LLMGateway)
    (request : PersonalityTransformationRequest) :
    Except Unit PersonalityTransformationResponse :=
  match gw (transformationLLMRequest request) with
  | .error _ => .error ()
  | .ok transformed =>
    .ok { original_response := request.original_response
          transformed_response := transformed
          personality_type := request.target_personality
          transformation_explanation := generateTransformationExplanation gw
            request.original_response transformed
            (personalityProfile request.target_personality)
          tone_analysis := analyzeToneChanges gw request.original_response
            transformed (personalityProfile request.target_personality)
          confidence_score := mkRat 17 20 }

/-- models/personality_models.py PersonalityComparison. -/
structure PersonalityComparison where
  user_message : String
  base_response : String
  personality_responses : List (PersonalityType × String)
  comparison_analysis : List (String × String)
  recommendations : List String

/-- PersonalityEngine._analyze_response_differences: a fixed analysis dict,
no model call. -/
def analyzeResponseDifferences (_base_response : String)
    (_personality_responses : List (PersonalityType × String)) :
    List (String × String) :=
  [("tone_variety", "high"), ("approach_differences", "significant"),
   ("length_variations", "notable"), ("emotional_range", "wide")]

/-- PersonalityEngine._generate_usage_recommendations: a fixed list, no
model call. -/
def generateUsageRecommendations (_user_message : String)
    (_personality_responses : List (PersonalityType × String)) : List String :=
  ["Use Mentor for guidance and advice",
   "Use Friend for casual conversation",
   "Use Therapist for emotional support",
   "Use Professional for formal assistance"]

/-- The ResponseGenerationRequest compare_personalities builds for each
variant: only user_message and personality are set. -/
def comparisonGenRequest (user_message : String) (personality : PersonalityType) :
    ResponseGenerationRequest :=
  { user_message := user_message
    personality := personality
    user_memory := none
    conversation_history := none
    context := none }

/-- Python dict insertion for the personality_responses dict. -/
def personalityDictInsert (acc : List (PersonalityType × String))
    (p : PersonalityType) (r : String) : List (PersonalityType × String) :=
  if acc.any (fun kv => kv.1 = p) then
    acc.map (fun kv => if kv.1 = p then (p, r) else kv)
  else
    acc ++ [(p, r)]

/-- The per-personality generation loop of compare_personalities: the first
failing generation raises and aborts the whole loop. -/
def comparisonLoop (gw : LLMGateway) (user_message : String) :
    List PersonalityType → List (PersonalityType × String) →
    Except Unit (List (PersonalityType × String))
  | [], acc => .ok acc
  | p :: ps, acc =>
    match generateResponse gw (comparisonGenRequest user_message p) with
    | .error _ => .error ()
    | .ok r => comparisonLoop gw user_message ps
        (personalityDictInsert acc p r.response)

/-- PersonalityEngine.compare_personalities with the llm_client stubbed by a
gateway: personalities defaults to all, one generation per variant in order,
any failure aborting the whole comparison with a PersonalityEngineError. -/
def comparePersonalities (gw : LLMGateway) (user_message base_response : String)
    (personalities : Option (List PersonalityType)) :
    Except Unit PersonalityComparison :=
  match comparisonLoop gw user_message (personalities.getD allPersonalities) [] with
  | .error _ => .error ()
  | .ok prs =>
    .ok { user_message := user_message
          base_response := base_response
          personality_responses := prs
          comparison_analysis := analyzeResponseDifferences base_response prs
          recommendations := generateUsageRecommendations user_message prs }

/-- The request payload of LLMClient.generate_response to the completion
endpoint. -/
structure LLMPayload where
  model : String
  messages : List (String × String)
  temperature : ℚ
  max_tokens : ℕ
deriving Repr, DecidableEq

/-- LLMClient.generate_response payload construction: each optional argument
falls back to the instance default by Python truthiness ("x or default"), so
an explicit 0 temperature, 0 max_tokens or empty model string also selects
the default (0.7, 1000, and the configured default model). -/
def buildPayload (defaultModel : String) (system_prompt user_prompt : String)
    (temperature : Option ℚ) (max_tokens : Option ℕ) (model : Option String) :
    LLMPayload :=
  { model := match model with
      | some m => if m = "" then defaultModel else m
      | none => defaultModel
    messages := [("system", system_prompt), ("user", user_prompt)]
    temperature := match temperature with
      | some t => if t = 0 then mkRat 7 10 else t
      | none => mkRat 7 10
    max_tokens := match max_tokens with
      | some n => if n = 0 then 1000 else n
      | none => 1000 }

/-- A concrete extraction reply for exercising element-level validation: one
in-range and one out-of-range preference, one valid pattern, one in-range
and one out-of-range fact. -/
def c1Data : Json :=
  .obj [("preferences", .arr
          [.obj [("category", .str "technical"), ("value", .str "dark mode"),
                 ("confidence", .floatNum (mkRat 17 20))],
           .obj [("category", .str "technical"), ("value", .str "bogus"),
                 ("confidence", .floatNum (mkRat 3 2))]]),
        ("emotional_patterns", .arr
          [.obj [("pattern", .str "excitement"),
                 ("frequency", .floatNum (mkRat 7 10)),
                 ("intensity", .str "high")]]),
        ("facts", .arr
          [.obj [("fact_type", .str "work"),
                 ("value", .str "software engineer"),
                 ("confidence", .floatNum (mkRat 9 10))],
           .obj [("fact_type", .str "work"), ("value", .str "bogus"),
                 ("confidence", .floatNum (mkRat (-1) 2))]])]

/-- The record the extractor builds from c1Data: both out-of-range elements
are dropped. -/
def c1Memory : UserMemory :=
  { user_id := none
    preferences := [("technical", [⟨"technical", "dark mode", mkRat 17 20, none, []⟩])]
    emotional_patterns := [⟨"excitement", mkRat 7 10, [], "high", none⟩]
    facts := [⟨"work", "software engineer", mkRat 9 10, none, none⟩]
    message_count := 0 }

/-- An emotional-pattern element whose intensity is outside the enumeration. -/
def c2Bad : Json :=
  .obj [("pattern", .str "anger"), ("frequency", .floatNum (mkRat 1 2)),
        ("intensity", .str "extreme")]

/-- A valid emotional-pattern element. -/
def c2Good : Json :=
  .obj [("pattern", .str "joy"), ("frequency", .floatNum (mkRat 3 10)),
        ("intensity", .str "low")]

/-- The fields of a concrete extraction reply holding c2Bad and c2Good. -/
def c2Fields : List (String × Json) :=
  [("emotional_patterns", .arr [c2Bad, c2Good])]

/-- A concrete extraction reply carrying messages_analyzed as an integer. -/
def c4Data : Json :=
  .obj [("messages_analyzed", .intNum 7)]

/-- The record the extractor builds from c4Data before enhancement. -/
def c4Memory : UserMemory :=
  { user_id := none
    preferences := []
    emotional_patterns := []
    facts := []
    message_count := 7 }

/-- Two caller-side messages. -/
def c4Msgs : List PyMsg :=
  [⟨some "user", some "hello"⟩, ⟨some "assistant", some "hi"⟩]

/-- The fenced raw reply of the spec's empty-record scenario. -/
def fenceExample : String :=
  "```json\n\x7b\"preferences\": [], \"emotional_patterns\": [], \"facts\": []\x7d\n```"

/-- A fact dict carrying the value "software engineer". -/
def c6Fact : Json :=
  .obj [("value", .str "software engineer")]

/-- A user-memory dict whose facts hold the value "software engineer". -/
def c6Memory : List (String × Json) :=
  [("facts", .arr [c6Fact])]

/-- A generation request carrying c6Memory. -/
def c6Request : ResponseGenerationRequest :=
  { user_message := "hi"
    personality := .mentor
    user_memory := some c6Memory
    conversation_history := none
    context := none }

/-- A generation request with no memory data. -/
def c6RequestNoMem : ResponseGenerationRequest :=
  { user_message := "hi"
    personality := .mentor
    user_memory := none
    conversation_history := none
    context := none }

/-- A gateway whose reply mentions the stored fact. -/
def gwSaysEngineer : LLMGateway :=
  fun _ => .ok "I see you are a software engineer."

/-- A gateway whose reply does not mention the stored fact. -/
def gwSaysHello : LLMGateway :=
  fun _ => .ok "Hello there."

/-- A gateway that fails exactly the calls issued for the FRIEND personality
(their temperature is 0.7) and succeeds otherwise. -/
def gwFailOnFriend : LLMGateway :=
  fun r => if r.temperature = mkRat 7 10 then .error () else .ok "ok"

/-- A gateway that answers only the primary transformation call (max_tokens
500) and fails the auxiliary tone-analysis (300) and explanation (200)
calls. -/
def gwPrimaryOnly : LLMGateway :=
  fun r => if r.maxTokens = 500 then .ok "T" else .error ()

/-- A transformation request towards MENTOR. -/
def c8Request : PersonalityTransformationRequest :=
  { original_response := "orig"
    target_personality := .mentor
    user_memory := none
    conversation_context := none
    user_message := none }

/-- The fact values _extract_memory_references can report: the value strings
of the dict-shaped facts that carry a str value. -/
def factStrValues (fs : List Json) : List String :=
  fs.filterMap (fun f => match f with
    | .obj kvs =>
      match dictGet kvs "value" with
      | some (.str s) => some s
      | _ => none
    | _ => none)

/-- A fact element that cannot make fact['value'].lower() raise: it is not a
dict, has no value key, or its value is a str. -/
def factValueOk : Json → Bool
  | .obj kvs =>
    match dictGet kvs "value" with
    | some (.str _) => true
    | some _ => false
    | none => true
  | _ => true

/-- An element accepted as a UserPreference passed the ge=0/le=1 bound on
confidence. -/
theorem parsePreference_range (j : Json) (p : UserPreference)
    (h : parsePreference j = some p) : 0 ≤ p.confidence ∧ p.confidence ≤ 1 := by
  unfold parsePreference at h
  split at h
  · split at h
    · rename_i hcond
      cases h
      exact ⟨hcond.2.1, hcond.2.2⟩
    · exact absurd h (by simp)
  · exact absurd h (by simp)

/-- An element accepted as an EmotionalPattern passed the ge=0/le=1 bound on
frequency and the intensity enumeration. -/
theorem parsePattern_range (j : Json) (p : EmotionalPattern)
    (h : parsePattern j = some p) :
    (0 ≤ p.frequency ∧ p.frequency ≤ 1) ∧ p.intensity ∈ intensityLevels := by
  unfold parsePattern at h
  split at h
  · split at h
    · rename_i hcond
      cases h
      exact ⟨⟨hcond.2.1, hcond.2.2⟩, hcond.1⟩
    · exact absurd h (by simp)
  · exact absurd h (by simp)

/-- An element accepted as a UserFact passed the ge=0/le=1 bound on
confidence. -/
theorem parseFact_range (j : Json) (p : UserFact)
    (h : parseFact j = some p) : 0 ≤ p.confidence ∧ p.confidence ≤ 1 := by
  unfold parseFact at h
  split at h
  · split at h
    · rename_i hcond
      cases h
      exact ⟨hcond.1, hcond.2⟩
    · exact absurd h (by simp)
  · exact absurd h (by simp)

/-- An emotional-pattern element whose intensity string is outside the
enumeration is rejected, whatever its other fields hold. -/
theorem parsePattern_badIntensity (j : Json) (s : String)
    (hs : objGet j "intensity" = some (.str s)) (hbad : s ∉ intensityLevels) :
    parsePattern j = none := by
  have hs2 : strField j "intensity" = some s := by
    unfold strField
    rw [hs]
  rcases h1 : strField j "pattern" with _ | p1 <;>
    rcases h2 : floatField j "frequency" with _ | f1 <;>
      rcases h3 : strListField j "triggers" with _ | t1 <;>
        rcases h4 : optStrField j "context" with _ | c1 <;>
          simp [parsePattern, hs2, h1, h2, h3, h4, hbad]

/-- A preference found in a bucket of insertPref acc p was in acc or is p. -/
theorem mem_insertPref (acc : List (String × List UserPreference))
    (p : UserPreference) (kv : String × List UserPreference)
    (hkv : kv ∈ insertPref acc p) (q : UserPreference) (hq : q ∈ kv.2) :
    (∃ kv0 ∈ acc, q ∈ kv0.2) ∨ q = p := by
  unfold insertPref at hkv
  split at hkv
  · obtain ⟨kv0, hkv0, hmap⟩ := List.mem_map.1 hkv
    by_cases hc : kv0.1 = p.category
    · rw [if_pos hc] at hmap
      subst hmap
      rcases List.mem_append.1 hq with h | h
      · exact Or.inl ⟨kv0, hkv0, h⟩
      · exact Or.inr (List.mem_singleton.1 h)
    · rw [if_neg hc] at hmap
      subst hmap
      exact Or.inl ⟨kv0, hkv0, hq⟩
  · rcases List.mem_append.1 hkv with h | h
    · exact Or.inl ⟨kv, h, hq⟩
    · have hkv2 := List.mem_singleton.1 h
      subst hkv2
      exact Or.inr (List.mem_singleton.1 hq)

/-- A preference found in a bucket of the preferences_dict fold came from
the accumulator or from the folded list. -/
theorem foldl_insertPref_mem (l : List UserPreference) :
    ∀ (acc : List (String × List UserPreference))
      (kv : String × List UserPreference), kv ∈ l.foldl insertPref acc →
      ∀ q ∈ kv.2, (∃ kv0 ∈ acc, q ∈ kv0.2) ∨ q ∈ l := by
  induction l with
  | nil =>
    intro acc kv hkv q hq
    exact Or.inl ⟨kv, hkv, hq⟩
  | cons p l ih =>
    intro acc kv hkv q hq
    rw [List.foldl_cons] at hkv
    rcases ih (insertPref acc p) kv hkv q hq with h | h
    · obtain ⟨kv0, hkv0, hq0⟩ := h
      rcases mem_insertPref acc p kv0 hkv0 q hq0 with h2 | h2
      · exact Or.inl h2
      · exact Or.inr (by simp [h2])
    · exact Or.inr (List.mem_cons_of_mem _ h)

/-- Every preference in a bucket of groupPrefs l is an element of l. -/
theorem mem_groupPrefs (l : List UserPreference)
    (kv : String × List UserPreference) (hkv : kv ∈ groupPrefs l)
    (q : UserPreference) (hq : q ∈ kv.2) : q ∈ l := by
  rcases foldl_insertPref_mem l [] kv hkv q hq with h | h
  · obtain ⟨kv0, hkv0, _⟩ := h
    exact absurd hkv0 (List.not_mem_nil kv0)
  · exact h

/-- What a successful _parse_extraction_result returns, in terms of its three
iterated fields. -/
theorem parseExtractionResult_inv (data : Json) (uid : Option String)
    (mem : UserMemory) (h : parseExtractionResult data uid = .ok mem) :
    ∃ l1 l2 l3, fieldElems data "preferences" = .ok l1 ∧
      fieldElems data "emotional_patterns" = .ok l2 ∧
      fieldElems data "facts" = .ok l3 ∧
      mem = { user_id := uid
              preferences := groupPrefs (l1.filterMap parsePreference)
              emotional_patterns := l2.filterMap parsePattern
              facts := l3.filterMap parseFact
              message_count :=
                normalizeMessagesAnalyzed (objGet data "messages_analyzed") } := by
  unfold parseExtractionResult at h
  split at h
  · split at h
    · rename_i l1 l2 l3 h1 h2 h3
      cases h
      exact ⟨l1, l2, l3, h1, h2, h3, rfl⟩
    · exact absurd h (by simp)
  · exact absurd h (by simp)

/-- What _parse_extraction_result returns when its three fields iterate. -/
theorem parseExtractionResult_ok (kvs : List (String × Json))
    (uid : Option String) (l1 l2 l3 : List Json)
    (h1 : fieldElems (.obj kvs) "preferences" = .ok l1)
    (h2 : fieldElems (.obj kvs) "emotional_patterns" = .ok l2)
    (h3 : fieldElems (.obj kvs) "facts" = .ok l3) :
    parseExtractionResult (.obj kvs) uid = .ok
      { user_id := uid
        preferences := groupPrefs (l1.filterMap parsePreference)
        emotional_patterns := l2.filterMap parsePattern
        facts := l3.filterMap parseFact
        message_count :=
          normalizeMessagesAnalyzed (objGet (.obj kvs) "messages_analyzed") } := by
  simp only [parseExtractionResult, h1, h2, h3]

/-- C1: every preference and fact in a returned extraction record has
confidence in [0,1] and every emotional pattern has frequency in [0,1]; an
element with an out-of-range confidence or frequency fails its pydantic
bound, is dropped by the per-element try/except, and so never appears in
the record. -/
theorem claim_C1_unit_interval_bounds (data : Json) (uid : Option String)
    (mem : UserMemory) (h : parseExtractionResult data uid = .ok mem) :
    (∀ kv ∈ mem.preferences, ∀ p ∈ kv.2, 0 ≤ p.confidence ∧ p.confidence ≤ 1) ∧
    (∀ ep ∈ mem.emotional_patterns, 0 ≤ ep.frequency ∧ ep.frequency ≤ 1) ∧
    (∀ f ∈ mem.facts, 0 ≤ f.confidence ∧ f.confidence ≤ 1) := by
  obtain ⟨l1, l2, l3, h1, h2, h3, hm⟩ := parseExtractionResult_inv data uid mem h
  subst hm
  refine ⟨?_, ?_, ?_⟩
  · intro kv hkv p hp
    have hpmem : p ∈ l1.filterMap parsePreference := mem_groupPrefs _ kv hkv p hp
    obtain ⟨j, _, hj⟩ := List.mem_filterMap.1 hpmem
    exact parsePreference_range j p hj
  · intro ep hep
    obtain ⟨j, _, hj⟩ := List.mem_filterMap.1 hep
    exact (parsePattern_range j ep hj).1
  · intro f hf
    obtain ⟨j, _, hj⟩ := List.mem_filterMap.1 hf
    exact parseFact_range j f hj

/-- C1 witness: on c1Data the extractor succeeds, the out-of-range elements
are gone, and the bounds hold for the returned record. -/
theorem claim_C1_unit_interval_bounds_witness :
    parseExtractionResult c1Data none = .ok c1Memory ∧
    ((∀ kv ∈ c1Memory.preferences, ∀ p ∈ kv.2,
        0 ≤ p.confidence ∧ p.confidence ≤ 1) ∧
     (∀ ep ∈ c1Memory.emotional_patterns, 0 ≤ ep.frequency ∧ ep.frequency ≤ 1) ∧
     (∀ f ∈ c1Memory.facts, 0 ≤ f.confidence ∧ f.confidence ≤ 1)) :=
  ⟨by rfl, claim_C1_unit_interval_bounds c1Data none c1Memory (by rfl)⟩

/-- C2: a reply whose emotional_patterns list holds an element with an
intensity outside low/medium/high still yields a record; that element is
rejected and dropped while every element that validates is kept. -/
theorem claim_C2_bad_intensity_dropped_locally (kvs : List (String × Json))
    (uid : Option String) (l1 l2 l3 : List Json)
    (h1 : fieldElems (.obj kvs) "preferences" = .ok l1)
    (h2 : fieldElems (.obj kvs) "emotional_patterns" = .ok l2)
    (h3 : fieldElems (.obj kvs) "facts" = .ok l3)
    (e : Json) (he : e ∈ l2) (s : String)
    (hs : objGet e "intensity" = some (.str s)) (hbad : s ∉ intensityLevels) :
    ∃ mem, parseExtractionResult (.obj kvs) uid = .ok mem ∧
      mem.emotional_patterns = l2.filterMap parsePattern ∧
      parsePattern e = none ∧
      ∀ e2 ∈ l2, ∀ p, parsePattern e2 = some p → p ∈ mem.emotional_patterns := by
  refine ⟨_, parseExtractionResult_ok kvs uid l1 l2 l3 h1 h2 h3, rfl,
    parsePattern_badIntensity e s hs hbad, ?_⟩
  intro e2 he2 p hp
  exact List.mem_filterMap.2 ⟨e2, he2, hp⟩

/-- C2 witness: the reply c2Fields holds the invalid c2Bad and the valid
c2Good; the record is returned with c2Bad dropped and c2Good kept. -/
theorem claim_C2_bad_intensity_dropped_locally_witness :
    fieldElems (.obj c2Fields) "preferences" = .ok [] ∧
    fieldElems (.obj c2Fields) "emotional_patterns" = .ok [c2Bad, c2Good] ∧
    fieldElems (.obj c2Fields) "facts" = .ok [] ∧
    c2Bad ∈ [c2Bad, c2Good] ∧
    objGet c2Bad "intensity" = some (.str "extreme") ∧
    "extreme" ∉ intensityLevels ∧
    (∃ mem, parseExtractionResult (.obj c2Fields) none = .ok mem ∧
      mem.emotional_patterns = [c2Bad, c2Good].filterMap parsePattern ∧
      parsePattern c2Bad = none ∧
      ∀ e2 ∈ [c2Bad, c2Good], ∀ p, parsePattern e2 = some p →
        p ∈ mem.emotional_patterns) :=
  ⟨by rfl, by rfl, by rfl, List.mem_cons_self _ _, by rfl, by decide,
   claim_C2_bad_intensity_dropped_locally c2Fields none [] [c2Bad, c2Good] []
     (by rfl) (by rfl) (by rfl) c2Bad (List.mem_cons_self _ _) "extreme"
     (by rfl) (by decide)⟩

/-- C4: the finalized record's message_count is the caller's message count
(the enhancement step overwrites whatever was parsed), while the
model-reported messages_analyzed is normalized into the intermediate record:
a Python int as-is, a list as its length, anything else as 0. -/
theorem claim_C4_caller_message_count_wins (data : Json) (uid : Option String)
    (mem : UserMemory) (msgs : List PyMsg)
    (h : parseExtractionResult data uid = .ok mem) :
    ((enhanceMemoryWithStats mem msgs).message_count = (msgs.length : ℤ)) ∧
    (mem.message_count =
      normalizeMessagesAnalyzed (objGet data "messages_analyzed")) ∧
    (∀ n : ℤ, normalizeMessagesAnalyzed (some (.intNum n)) = n) ∧
    (∀ xs : List Json,
      normalizeMessagesAnalyzed (some (.arr xs)) = (xs.length : ℤ)) ∧
    (normalizeMessagesAnalyzed none = 0) ∧
    (∀ q : ℚ, normalizeMessagesAnalyzed (some (.floatNum q)) = 0) ∧
    (∀ s : String, normalizeMessagesAnalyzed (some (.str s)) = 0) ∧
    (normalizeMessagesAnalyzed (some .null) = 0) ∧
    (∀ kvs2 : List (String × Json),
      normalizeMessagesAnalyzed (some (.obj kvs2)) = 0) := by
  obtain ⟨l1, l2, l3, h1, h2, h3, hm⟩ := parseExtractionResult_inv data uid mem h
  subst hm
  exact ⟨rfl, rfl, fun n => rfl, fun xs => rfl, rfl, fun q => rfl,
    fun s => rfl, rfl, fun kvs2 => rfl⟩

/-- C4 witness: on c4Data (messages_analyzed reported as 7) the intermediate
record carries 7, and after enhancement with the two caller messages the
final count is 2. -/
theorem claim_C4_caller_message_count_wins_witness :
    parseExtractionResult c4Data none = .ok c4Memory ∧
    (enhanceMemoryWithStats c4Memory c4Msgs).message_count = (2 : ℤ) ∧
    c4Memory.message_count = (7 : ℤ) :=
  ⟨by rfl,
   (claim_C4_caller_message_count_wins c4Data none c4Memory c4Msgs (by rfl)).1,
   (claim_C4_caller_message_count_wins c4Data none c4Memory c4Msgs (by rfl)).2.1⟩

/-- C3: the extraction interpreter fails with the invalid-JSON error exactly
when the cleaned text (whitespace and code-fence marker characters stripped
from both ends) does not parse as JSON; the fenced empty reply yields an
empty valid record with no error, and the raw text "not json" fails with the
invalid-JSON error. -/
theorem claim_C3_json_gate_and_fence_examples :
    (∀ raw : String, interpretExtractionReply raw = .error .invalidJson ↔
      jsonParse (cleanResponse raw) = none) ∧
    extractMemoryFromReply fenceExample none [] =
      .ok { user_id := none, preferences := [], emotional_patterns := [],
            facts := [], message_count := 0 } ∧
    interpretExtractionReply "not json" = .error .invalidJson := by
  refine ⟨?_, by rfl, by rfl⟩
  intro raw
  unfold interpretExtractionReply
  rcases h : jsonParse (cleanResponse raw) with _ | v <;> simp [h]

/-- The _format_messages loop written as a filterMap over the enumeration of
the messages from the given start index. -/
theorem formatLines_enumFrom (msgs : List PyMsg) : ∀ i : Nat,
    formatLines i msgs = (List.enumFrom i msgs).filterMap (fun im =>
      if pyStrip (im.2.content.getD "") = "" then none
      else some ("[" ++ toString im.1 ++ "] " ++
        pyUpper (im.2.role.getD "unknown") ++ ": " ++
        pyStrip (im.2.content.getD ""))) := by
  induction msgs with
  | nil => intro i; rfl
  | cons m ms ih =>
    intro i
    by_cases hc : pyStrip (m.content.getD "") = "" <;>
      simp [formatLines, List.enumFrom, hc, ih]

/-- C9 counterexample: the content of a message is stripped before the
emptiness test and in the emitted line, so the message " hi " yields the
line "[1] USER: hi" rather than "[1] USER:  hi ", and a whitespace-only
message yields no line although its content is non-empty. -/
theorem claim_C9_counterexample :
    formatMessages [⟨some "user", some " hi "⟩] = "[1] USER: hi" ∧
    formatMessages [⟨some "user", some " hi "⟩] ≠ "[1] USER:  hi " ∧
    formatMessages [⟨some "user", some " "⟩] = "" := by
  exact ⟨by rfl, by decide, by rfl⟩

/-- C9 amended: the extraction user prompt embeds the formatted transcript,
which holds one line per message whose whitespace-stripped content is
non-empty, as "[index] ROLE: stripped-content" with the 1-based original
index, the role (default unknown) uppercased, in original order, joined by
newlines. -/
theorem claim_C9_amended_prompt_lines (msgs : List PyMsg) :
    extractionUserPrompt msgs =
      "Analyze these chat messages and extract user memory information:\n\n" ++
      formatMessages msgs ++
      "\n\nFocus on identifying patterns, preferences, and facts that would be " ++
      "useful for creating personalized AI responses. Provide your analysis in " ++
      "the specified JSON format." ∧
    formatMessages msgs = String.intercalate "\n"
      ((List.enumFrom 1 msgs).filterMap (fun im =>
        if pyStrip (im.2.content.getD "") = "" then none
        else some ("[" ++ toString im.1 ++ "] " ++
          pyUpper (im.2.role.getD "unknown") ++ ": " ++
          pyStrip (im.2.content.getD "")))) := by
  refine ⟨rfl, ?_⟩
  unfold formatMessages
  rw [formatLines_enumFrom]

/-- C5: the sampling temperature handed to the model client is 0.7 exactly
for the FRIEND personality and 0.5 exactly for every other personality, at
both the generation and the transformation call site. -/
theorem claim_C5_temperature_by_personality (greq : ResponseGenerationRequest)
    (treq : PersonalityTransformationRequest) :
    ((generationLLMRequest greq).temperature = mkRat 7 10 ↔
      greq.personality = .friend) ∧
    ((generationLLMRequest greq).temperature = mkRat 1 2 ↔
      greq.personality ≠ .friend) ∧
    ((transformationLLMRequest treq).temperature = mkRat 7 10 ↔
      treq.target_personality = .friend) ∧
    ((transformationLLMRequest treq).temperature = mkRat 1 2 ↔
      treq.target_personality ≠ .friend) := by
  have hne : mkRat 7 10 ≠ mkRat 1 2 := by decide
  by_cases h1 : greq.personality = .friend <;>
    by_cases h2 : treq.target_personality = .friend <;>
      simp [generationLLMRequest, transformationLLMRequest, h1, h2, hne,
        hne.symm]

/-- C10: an explicitly supplied temperature 0 or max_tokens 0 is replaced by
the instance default (0.7, 1000) because the payload uses Python truthiness
for the fallback, so no call can put temperature 0 in the payload. -/
theorem claim_C10_zero_arguments_fall_back_to_defaults :
    (∀ dm sys usr mt om,
      (buildPayload dm sys usr (some 0) mt om).temperature = mkRat 7 10) ∧
    (∀ dm sys usr t om,
      (buildPayload dm sys usr t (some 0) om).max_tokens = 1000) ∧
    (∀ dm sys usr t mt om, (buildPayload dm sys usr t mt om).temperature ≠ 0) := by
  refine ⟨fun dm sys usr mt om => by simp [buildPayload],
    fun dm sys usr t om => by simp [buildPayload], ?_⟩
  intro dm sys usr t mt om
  cases t with
  | none =>
    simp only [buildPayload]
    decide
  | some x =>
    by_cases hx : x = 0 <;> simp [buildPayload, hx]

/-- The _extract_memory_references loop over a fact list whose dict values
are all strings: exactly the matching fact values, each prefixed with
"Referenced fact: ", in order. -/
theorem factsLoop_clean (rl : String) (fs : List Json)
    (hclean : ∀ f ∈ fs, factValueOk f = true) :
    factsLoop rl fs = .ok (((factStrValues fs).filter
      (fun v => containsSub (pyLower v) rl)).map
        (fun v => "Referenced fact: " ++ v)) := by
  induction fs with
  | nil => rfl
  | cons f fs ih =>
    have hf := hclean f (List.mem_cons_self f fs)
    have ih2 := ih (fun g hg => hclean g (List.mem_cons_of_mem f hg))
    cases f with
    | obj kvs =>
      rcases hv : dictGet kvs "value" with _ | v
      · simp [factsLoop, factRef, hv, ih2, factStrValues]
      · cases v with
        | str s =>
          by_cases hmatch : containsSub (pyLower s) rl = true <;>
            simp [factsLoop, factRef, hv, ih2, factStrValues, hmatch]
        | null => simp [factValueOk, hv] at hf
        | bool b => simp [factValueOk, hv] at hf
        | intNum n => simp [factValueOk, hv] at hf
        | floatNum q => simp [factValueOk, hv] at hf
        | arr xs => simp [factValueOk, hv] at hf
        | obj kvs2 => simp [factValueOk, hv] at hf
    | null => simp [factsLoop, factRef, ih2, factStrValues]
    | bool b => simp [factsLoop, factRef, ih2, factStrValues]
    | intNum n => simp [factsLoop, factRef, ih2, factStrValues]
    | floatNum q => simp [factsLoop, factRef, ih2, factStrValues]
    | str s => simp [factsLoop, factRef, ih2, factStrValues]
    | arr xs => simp [factsLoop, factRef, ih2, factStrValues]

/-- C6: memory_references of a generation call reports exactly the stored
fact values whose lowercase form is a substring of the lowercase response
(each as "Referenced fact: value"), and a call with no memory data reports
an empty list. -/
theorem claim_C6_memory_references_are_matching_fact_values :
    (∀ (gw : LLMGateway) (req : ResponseGenerationRequest) (r : String)
      (d : List (String × Json)) (fs : List Json) (es : List String),
      gw (generationLLMRequest req) = .ok r →
      req.user_memory = some d →
      dictGet d "facts" = some (.arr fs) →
      (∀ f ∈ fs, factValueOk f = true) →
      extractPersonalizationElements r (some d) = .ok es →
      ∃ resp, generateResponse gw req = .ok resp ∧
        resp.response = r ∧
        resp.memory_references = ((factStrValues fs).filter
          (fun v => containsSub (pyLower v) (pyLower r))).map
            (fun v => "Referenced fact: " ++ v)) ∧
    (∀ (gw : LLMGateway) (req : ResponseGenerationRequest) (r : String),
      req.user_memory = none →
      gw (generationLLMRequest req) = .ok r →
      ∃ resp, generateResponse gw req = .ok resp ∧
        resp.memory_references = []) := by
  constructor
  · intro gw req r d fs es hgw hmem hfs hclean hpe
    have hdne : d.isEmpty = false := by
      cases d with
      | nil => simp [dictGet] at hfs
      | cons kv d2 => rfl
    have hrefs : extractMemoryReferences r (some d) =
        .ok (((factStrValues fs).filter
          (fun v => containsSub (pyLower v) (pyLower r))).map
            (fun v => "Referenced fact: " ++ v)) := by
      simp [extractMemoryReferences, hdne, hfs, iterElems,
        factsLoop_clean (pyLower r) fs hclean]
    refine ⟨{ response := r
              personality := req.personality
              personalization_elements := es
              tone_metrics := analyzeResponseTone r
                (personalityProfile req.personality)
              memory_references := ((factStrValues fs).filter
                (fun v => containsSub (pyLower v) (pyLower r))).map
                  (fun v => "Referenced fact: " ++ v)
              generation_confidence := mkRat 22 25 }, ?_, rfl, rfl⟩
    simp [generateResponse, hgw, hmem, hpe, hrefs]
  · intro gw req r hmem hgw
    refine ⟨{ response := r
              personality := req.personality
              personalization_elements := []
              tone_metrics := analyzeResponseTone r
                (personalityProfile req.personality)
              memory_references := []
              generation_confidence := mkRat 22 25 }, ?_, rfl⟩
    simp [generateResponse, hgw, hmem, extractPersonalizationElements,
      extractMemoryReferences]

/-- C6 witness: with the stored fact "software engineer", a response
containing the substring reports it, a response without it reports nothing,
and a call without memory reports nothing. -/
theorem claim_C6_memory_references_witness :
    (∃ resp, generateResponse gwSaysEngineer c6Request = .ok resp ∧
      resp.response = "I see you are a software engineer." ∧
      resp.memory_references = ((factStrValues [c6Fact]).filter
        (fun v => containsSub (pyLower v)
          (pyLower "I see you are a software engineer."))).map
            (fun v => "Referenced fact: " ++ v)) ∧
    ((factStrValues [c6Fact]).filter (fun v => containsSub (pyLower v)
      (pyLower "I see you are a software engineer."))).map
        (fun v => "Referenced fact: " ++ v) =
      ["Referenced fact: software engineer"] ∧
    (∃ resp, generateResponse gwSaysHello c6Request = .ok resp ∧
      resp.response = "Hello there." ∧
      resp.memory_references = ((factStrValues [c6Fact]).filter
        (fun v => containsSub (pyLower v) (pyLower "Hello there."))).map
          (fun v => "Referenced fact: " ++ v)) ∧
    ((factStrValues [c6Fact]).filter (fun v => containsSub (pyLower v)
      (pyLower "Hello there."))).map (fun v => "Referenced fact: " ++ v) = [] ∧
    (∃ resp, generateResponse gwSaysHello c6RequestNoMem = .ok resp ∧
      resp.memory_references = []) :=
  ⟨claim_C6_memory_references_are_matching_fact_values.1 gwSaysEngineer
     c6Request "I see you are a software engineer." c6Memory [c6Fact] []
     (by rfl) (by rfl) (by rfl) (by decide) (by rfl),
   by rfl,
   claim_C6_memory_references_are_matching_fact_values.1 gwSaysHello
     c6Request "Hello there." c6Memory [c6Fact] []
     (by rfl) (by rfl) (by rfl) (by decide) (by rfl),
   by rfl,
   claim_C6_memory_references_are_matching_fact_values.2 gwSaysHello
     c6RequestNoMem "Hello there." (by rfl) (by rfl)⟩

/-- The compare_personalities generation loop raises as soon as any listed
personality's generation fails, whatever is already accumulated. -/
theorem comparisonLoop_error (gw : LLMGateway) (user_message : String)
    (p : PersonalityType)
    (hfail : generateResponse gw (comparisonGenRequest user_message p) =
      .error ()) :
    ∀ (ps : List PersonalityType) (acc : List (PersonalityType × String)),
      p ∈ ps → comparisonLoop gw user_message ps acc = .error () := by
  intro ps
  induction ps with
  | nil =>
    intro acc h
    exact absurd h (List.not_mem_nil p)
  | cons q ps ih =>
    intro acc hmem
    rcases hg : generateResponse gw (comparisonGenRequest user_message q)
      with e | r
    · simp [comparisonLoop, hg]
    · rcases List.mem_cons.1 hmem with rfl | hmem2
      · rw [hg] at hfail
        exact absurd hfail (by simp)
      · simp only [comparisonLoop, hg]
        exact ih _ hmem2

/-- C7: a gateway failure during any single variant's generation aborts the
whole personality comparison with an error; no partial comparison record is
returned. -/
theorem claim_C7_gateway_failure_aborts_comparison (gw : LLMGateway)
    (user_message base_response : String) (ps : List PersonalityType)
    (p : PersonalityType) (hp : p ∈ ps)
    (hfail : gw (generationLLMRequest (comparisonGenRequest user_message p)) =
      .error ()) :
    comparePersonalities gw user_message base_response (some ps) =
      .error () := by
  have hgen : generateResponse gw (comparisonGenRequest user_message p) =
      .error () := by
    simp [generateResponse, hfail]
  have hloop := comparisonLoop_error gw user_message p hgen ps [] hp
  simp [comparePersonalities, hloop]

/-- C7 witness: over [mentor, friend] with a gateway that fails exactly the
friend call (the second one; the mentor generation succeeds), the whole
comparison errors. -/
theorem claim_C7_gateway_failure_aborts_comparison_witness :
    PersonalityType.friend ∈
      ([.mentor, .friend] : List PersonalityType) ∧
    generateResponse gwFailOnFriend (comparisonGenRequest "hi" .friend) =
      .error () ∧
    (∃ resp, generateResponse gwFailOnFriend
      (comparisonGenRequest "hi" .mentor) = .ok resp) ∧
    comparePersonalities gwFailOnFriend "hi" "base"
      (some [.mentor, .friend]) = .error () :=
  ⟨by decide, by rfl, ⟨_, by rfl⟩,
   claim_C7_gateway_failure_aborts_comparison gwFailOnFriend "hi" "base"
     [.mentor, .friend] .friend (by decide) (by rfl)⟩

/-- C8: when the primary transformation call succeeds, the transformation
always returns a record with that transformed text; a failing tone-analysis
sub-call is replaced by the placeholder "Tone analysis unavailable" and a
failing explanation sub-call by "Transformation explanation unavailable",
never aborting the primary response. -/
theorem claim_C8_aux_subcall_failures_recovered (gw : LLMGateway)
    (req : PersonalityTransformationRequest) (t : String)
    (hprimary : gw (transformationLLMRequest req) = .ok t) :
    ∃ resp, transformResponse gw req = .ok resp ∧
      resp.transformed_response = t ∧
      (gw (toneAnalysisLLMRequest req.original_response t
          (personalityProfile req.target_personality)) = .error () →
        resp.tone_analysis = [("analysis", "Tone analysis unavailable")]) ∧
      (gw (explanationLLMRequest req.original_response t
          (personalityProfile req.target_personality)) = .error () →
        resp.transformation_explanation =
          "Transformation explanation unavailable") := by
  refine ⟨{ original_response := req.original_response
            transformed_response := t
            personality_type := req.target_personality
            transformation_explanation := generateTransformationExplanation gw
              req.original_response t
              (personalityProfile req.target_personality)
            tone_analysis := analyzeToneChanges gw req.original_response t
              (personalityProfile req.target_personality)
            confidence_score := mkRat 17 20 }, ?_, rfl, ?_, ?_⟩
  · simp [transformResponse, hprimary]
  · intro hfail
    simp [analyzeToneChanges, hfail]
  · intro hfail
    simp [generateTransformationExplanation, hfail]

/-- C8 witness: a gateway answering only the primary call (max_tokens 500)
leaves both auxiliary calls failing, and the transformation still succeeds
with both placeholders substituted. -/
theorem claim_C8_aux_subcall_failures_recovered_witness :
    gwPrimaryOnly (transformationLLMRequest c8Request) = .ok "T" ∧
    gwPrimaryOnly (toneAnalysisLLMRequest c8Request.original_response "T"
      (personalityProfile c8Request.target_personality)) = .error () ∧
    gwPrimaryOnly (explanationLLMRequest c8Request.original_response "T"
      (personalityProfile c8Request.target_personality)) = .error () ∧
    transformResponse gwPrimaryOnly c8Request = .ok
      { original_response := "orig"
        transformed_response := "T"
        personality_type := .mentor
        transformation_explanation := "Transformation explanation unavailable"
        tone_analysis := [("analysis", "Tone analysis unavailable")]
        confidence_score := mkRat 17 20 } ∧
    (∃ resp, transformResponse gwPrimaryOnly c8Request = .ok resp ∧
      resp.transformed_response = "T" ∧
      (gwPrimaryOnly (toneAnalysisLLMRequest c8Request.original_response "T"
          (personalityProfile c8Request.target_personality)) = .error () →
        resp.tone_analysis = [("analysis", "Tone analysis unavailable")]) ∧
      (gwPrimaryOnly (explanationLLMRequest c8Request.original_response "T"
          (personalityProfile c8Request.target_personality)) = .error () →
        resp.transformation_explanation =
          "Transformation explanation unavailable")) :=
  ⟨by rfl, by rfl, by rfl, by rfl,
   claim_C8_aux_subcall_failures_recovered gwPrimaryOnly c8Request "T"
     (by rfl)⟩

end GS
